import Mathlib

/-!
Verification of the generational arena allocator (`src/arena.rs`, `src/sarena.rs`).

The Rust code is shallowly embedded:
* `ArenaCell` mirrors `enum ArenaCell<T> { Allocated{val, generation}, Freed{next, generation} }`.
* `ArenaIdx` mirrors `struct ArenaIdx<T> { index, generation, _ty }`; the
  `PhantomData` type tag carries no runtime state and is dropped.
* `Arena` mirrors `struct Arena<T> { cells: Vec<ArenaCell<T>>, freed: Option<usize>, num: usize }`,
  with the `Vec` as a `List` and `usize` counters as `Nat` (the spec treats the
  generation counters as unbounded; overflow is an explicit non-goal).
* A Rust operation that can panic (out-of-bounds indexing, the explicit panic in
  `get2_mut`, the `Err` case of `insert`) is embedded with an outer `Option`:
  `none` is a panic, `some r` is a normal return of `r`.
-/

/-- Mirrors `ArenaCell<T>`: `Allocated{val, generation}` / `Freed{next, generation}`. -/
inductive ArenaCell (T : Type) where
  | Allocated (val : T) (generation : Nat)
  | Freed (next : Option Nat) (generation : Nat)
deriving DecidableEq, Repr

/-- Mirrors `ArenaIdx<T>` (index + generation; the phantom type tag is compile-time only). -/
structure ArenaIdx where
  index : Nat
  generation : Nat
deriving DecidableEq, Repr

/-- Mirrors `Arena<T>`: cells vector, head of the freed list, live count. -/
structure Arena (T : Type) where
  cells : List (ArenaCell T)
  freed : Option Nat
  num : Nat
deriving DecidableEq, Repr

namespace Arena

variable {T : Type}

/-- Mirrors `Arena::new()`. -/
def new : Arena T := ⟨[], none, 0⟩

/-- Mirrors `Arena::get`. Outer `none` = panic (out-of-bounds `self.cells[index.index]`);
`some (some v)` = `Some(&v)`; `some none` = `None`. -/
def getRes (a : Arena T) (h : ArenaIdx) : Option (Option T) :=
  match a.cells[h.index]? with
  | some (ArenaCell.Allocated val generation) =>
      some (if generation = h.generation then some val else none)
  | some (ArenaCell.Freed _ _) => some none
  | none => none

/-- Mirrors `Arena::get_mut` (same lookup logic as `get`; the returned value is the
one the mutable reference would point at). -/
def getMutRes (a : Arena T) (h : ArenaIdx) : Option (Option T) :=
  match a.cells[h.index]? with
  | some (ArenaCell.Allocated val generation) =>
      some (if generation = h.generation then some val else none)
  | some (ArenaCell.Freed _ _) => some none
  | none => none

/-- Mirrors `Arena::get_any`: ignores the generation entirely. -/
def getAnyRes (a : Arena T) (i : Nat) : Option (Option T) :=
  match a.cells[i]? with
  | some (ArenaCell.Allocated val _) => some (some val)
  | some (ArenaCell.Freed _ _) => some none
  | none => none

/-- Mirrors `Arena::get_any_mut`. -/
def getAnyMutRes (a : Arena T) (i : Nat) : Option (Option T) :=
  match a.cells[i]? with
  | some (ArenaCell.Allocated val _) => some (some val)
  | some (ArenaCell.Freed _ _) => some none
  | none => none

/-- Mirrors `Arena::gen`: generation stored at a raw slot index (panics out of range). -/
def genRes (a : Arena T) (i : Nat) : Option Nat :=
  match a.cells[i]? with
  | some (ArenaCell.Freed _ generation) => some generation
  | some (ArenaCell.Allocated _ generation) => some generation
  | none => none

/-- Mirrors `Arena::try_insert`. Returns `some (Sum.inl idx, a')` for `Ok(idx)` with
updated arena, `some (Sum.inr v, a)` for `Err(v)` (arena untouched), `none` for a
panic (freed head out of bounds). -/
def tryInsert (a : Arena T) (v : T) : Option ((ArenaIdx ⊕ T) × Arena T) :=
  match a.freed with
  | some i =>
      match a.cells[i]? with
      | some (ArenaCell.Freed next generation) =>
          some (Sum.inl ⟨i, generation⟩,
            ⟨a.cells.set i (ArenaCell.Allocated v generation), next, a.num + 1⟩)
      | some (ArenaCell.Allocated _ _) => some (Sum.inr v, a)
      | none => none
  | none =>
      some (Sum.inl ⟨a.cells.length, 0⟩,
        ⟨a.cells ++ [ArenaCell.Allocated v 0], none, a.num + 1⟩)

/-- Mirrors `Arena::insert`: `try_insert`, panicking on `Err`. -/
def insertRes (a : Arena T) (v : T) : Option (ArenaIdx × Arena T) :=
  match a.tryInsert v with
  | some (Sum.inl idx, a2) => some (idx, a2)
  | some (Sum.inr _, _) => none
  | none => none

/-- Mirrors `Arena::remove`: `none` = panic (index out of bounds); otherwise the
resulting arena (unchanged when the slot is already `Freed`). -/
def remove (a : Arena T) (h : ArenaIdx) : Option (Arena T) :=
  match a.cells[h.index]? with
  | some (ArenaCell.Allocated _ generation) =>
      some ⟨a.cells.set h.index (ArenaCell.Freed a.freed (generation + 1)),
            some h.index, a.num - 1⟩
  | some (ArenaCell.Freed _ _) => some a
  | none => none

/-- One iteration of the loop body of `Arena::clear` at position `i` of a
vector of length `len`. -/
def clearCell (len i : Nat) (c : ArenaCell T) : ArenaCell T :=
  match c with
  | ArenaCell.Allocated _ generation =>
      ArenaCell.Freed (if i < len - 1 then some (i + 1) else none) (generation + 1)
  | ArenaCell.Freed _ generation =>
      ArenaCell.Freed (if i < len - 1 then some (i + 1) else none) generation

/-- The `iter_mut().enumerate()` loop of `Arena::clear`, starting at position `i`. -/
def clearCells (len : Nat) : Nat → List (ArenaCell T) → List (ArenaCell T)
  | _, [] => []
  | i, c :: rest => clearCell len i c :: clearCells len (i + 1) rest

/-- Mirrors `Arena::clear`: rewrites every cell, zeroes `num`; `freed` is not assigned. -/
def clear (a : Arena T) : Arena T :=
  ⟨clearCells a.cells.length 0 a.cells, a.freed, 0⟩

/-- Generation-checked lookup of a single cell, as in the tail of `Arena::get2_mut`. -/
def cellLookup (c : ArenaCell T) (g : Nat) : Option T :=
  match c with
  | ArenaCell.Allocated val generation => if g = generation then some val else none
  | ArenaCell.Freed _ _ => none

/-- Mirrors `Arena::get2_mut`. Outer `none` = panic (the explicit equal-generation
panic, or an out-of-bounds `get_mut`). -/
def get2MutRes (a : Arena T) (i0 i1 : ArenaIdx) : Option (Option T × Option T) :=
  if i0.index = i1.index then
    if i0.generation = i1.generation then none
    else if i1.generation < i0.generation then
      (a.getMutRes i0).map fun r => (r, (none : Option T))
    else
      (a.getMutRes i1).map fun r => ((none : Option T), r)
  else if a.cells.length ≤ i0.index then
    (a.getMutRes i1).map fun r => ((none : Option T), r)
  else if a.cells.length ≤ i1.index then
    (a.getMutRes i0).map fun r => (r, (none : Option T))
  else
    match a.cells[i0.index]?, a.cells[i1.index]? with
    | some c0, some c1 => some (cellLookup c0 i0.generation, cellLookup c1 i1.generation)
    | _, _ => none

/-- Mirrors `Arena::num`. -/
def numRes (a : Arena T) : Nat := a.num

/-- The freed-slot indices enumerated by following `next` links from the freed head
(`fuel` bounds the walk; a link to a non-`Freed` or out-of-range slot stops it). -/
def freeChainAux (cells : List (ArenaCell T)) : Nat → Option Nat → List Nat
  | 0, _ => []
  | _ + 1, none => []
  | fuel + 1, some i =>
      match cells[i]? with
      | some (ArenaCell.Freed next _) => i :: freeChainAux cells fuel next
      | _ => []

/-- The free-slot indices reachable from the arena's freed head. -/
def freeChain (a : Arena T) : List Nat :=
  freeChainAux a.cells a.cells.length a.freed

/-- Number of `Allocated` cells in the backing storage. -/
def countAllocated : List (ArenaCell T) → Nat
  | [] => 0
  | ArenaCell.Allocated _ _ :: rest => countAllocated rest + 1
  | ArenaCell.Freed _ _ :: rest => countAllocated rest

/-- States reachable from a fresh arena by the mutating operations
(`insert`/`try_insert` share the same successful state transition; a panicking
call has no successor state). -/
inductive Reachable : Arena T → Prop where
  | init : Reachable Arena.new
  | insertStep {a : Arena T} {v : T} {r : ArenaIdx ⊕ T} {a2 : Arena T} :
      Reachable a → a.tryInsert v = some (r, a2) → Reachable a2
  | removeStep {a : Arena T} {h : ArenaIdx} {a2 : Arena T} :
      Reachable a → a.remove h = some a2 → Reachable a2
  | clearStep {a : Arena T} : Reachable a → Reachable a.clear

end Arena

/-- Mirrors `SArenaIdx<T>` (same shape as `ArenaIdx`, separate type in the source). -/
structure SArenaIdx where
  index : Nat
  generation : Nat
deriving DecidableEq, Repr

/-- Mirrors `SArena<T, N>`: a fixed block of `N` cells, freed head, live count.
The `[ArenaCell<T>; N]` array is a list (well-formed states have length `N`). -/
structure SArena (T : Type) (N : Nat) where
  cells : List (ArenaCell T)
  freed : Option Nat
  num : Nat
deriving DecidableEq, Repr

namespace SArena

variable {T : Type} {N : Nat}

/-- Mirrors `SArena::try_insert`: unlike `Arena::try_insert`, an empty free list
returns `Err(val)` — the storage never grows. -/
def tryInsert (a : SArena T N) (v : T) : Option ((SArenaIdx ⊕ T) × SArena T N) :=
  match a.freed with
  | some i =>
      match a.cells[i]? with
      | some (ArenaCell.Freed next generation) =>
          some (Sum.inl ⟨i, generation⟩,
            ⟨a.cells.set i (ArenaCell.Allocated v generation), next, a.num + 1⟩)
      | some (ArenaCell.Allocated _ _) => some (Sum.inr v, a)
      | none => none
  | none => some (Sum.inr v, a)

/-- Mirrors `SArena::get` (identical logic to `Arena::get`). -/
def getRes (a : SArena T N) (h : SArenaIdx) : Option (Option T) :=
  match a.cells[h.index]? with
  | some (ArenaCell.Allocated val generation) =>
      some (if generation = h.generation then some val else none)
  | some (ArenaCell.Freed _ _) => some none
  | none => none

/-- Mirrors `SArena::get_mut`. -/
def getMutRes (a : SArena T N) (h : SArenaIdx) : Option (Option T) :=
  match a.cells[h.index]? with
  | some (ArenaCell.Allocated val generation) =>
      some (if generation = h.generation then some val else none)
  | some (ArenaCell.Freed _ _) => some none
  | none => none

/-- Mirrors `SArena::remove` (identical logic to `Arena::remove`). -/
def remove (a : SArena T N) (h : SArenaIdx) : Option (SArena T N) :=
  match a.cells[h.index]? with
  | some (ArenaCell.Allocated _ generation) =>
      some ⟨a.cells.set h.index (ArenaCell.Freed a.freed (generation + 1)),
            some h.index, a.num - 1⟩
  | some (ArenaCell.Freed _ _) => some a
  | none => none

/-- Mirrors `SArena::get2_mut` (identical logic to `Arena::get2_mut`). -/
def get2MutRes (a : SArena T N) (i0 i1 : SArenaIdx) : Option (Option T × Option T) :=
  if i0.index = i1.index then
    if i0.generation = i1.generation then none
    else if i1.generation < i0.generation then
      (a.getMutRes i0).map fun r => (r, (none : Option T))
    else
      (a.getMutRes i1).map fun r => ((none : Option T), r)
  else if a.cells.length ≤ i0.index then
    (a.getMutRes i1).map fun r => ((none : Option T), r)
  else if a.cells.length ≤ i1.index then
    (a.getMutRes i0).map fun r => (r, (none : Option T))
  else
    match a.cells[i0.index]?, a.cells[i1.index]? with
    | some c0, some c1 =>
        some (Arena.cellLookup c0 i0.generation, Arena.cellLookup c1 i1.generation)
    | _, _ => none

/-- Mirrors `SArena::capacity`: the fixed `N`, independent of the state. -/
def capacity (_ : SArena T N) : Nat := N

end SArena

/-! ## Helper lemmas -/

theorem getElem_opt_some_lt {α : Type} {l : List α} {i : Nat} {x : α}
    (h : l[i]? = some x) : i < l.length :=
  (List.getElem?_eq_some.mp h).1

/-! ## Claims -/

/-- C1 (amended): `get(h)` returns the stored value iff `h` is valid: the slot at
`h.index` exists, is `Allocated`, and its generation equals `h.generation`. For an
in-range index whose slot does not match, `get` returns empty; but for an
out-of-range index `get` panics (out-of-bounds indexing) instead of returning
empty. Holds for both `Arena::get` and `SArena::get`. -/
theorem C1_get_returns_value_iff_valid :
    (∀ (T : Type) (a : Arena T) (h : ArenaIdx),
      (∀ v : T, a.getRes h = some (some v) ↔
          a.cells[h.index]? = some (ArenaCell.Allocated v h.generation)) ∧
      (h.index < a.cells.length →
        (∀ v : T, a.cells[h.index]? ≠ some (ArenaCell.Allocated v h.generation)) →
        a.getRes h = some none) ∧
      (a.cells.length ≤ h.index → a.getRes h = none)) ∧
    (∀ (T : Type) (N : Nat) (a : SArena T N) (h : SArenaIdx),
      (∀ v : T, a.getRes h = some (some v) ↔
          a.cells[h.index]? = some (ArenaCell.Allocated v h.generation)) ∧
      (h.index < a.cells.length →
        (∀ v : T, a.cells[h.index]? ≠ some (ArenaCell.Allocated v h.generation)) →
        a.getRes h = some none) ∧
      (a.cells.length ≤ h.index → a.getRes h = none)) := by
  constructor
  · intro T a h
    refine ⟨?_, ?_, ?_⟩
    · intro v
      unfold Arena.getRes
      cases hc : a.cells[h.index]? with
      | none => simp
      | some c =>
        cases c with
        | Allocated w g =>
          by_cases hg : g = h.generation
          · subst hg; simp [ArenaCell.Allocated.injEq, eq_comm]
          · simp [hg, ArenaCell.Allocated.injEq]
        | Freed nx g => simp
    · intro hlt hnv
      unfold Arena.getRes
      cases hc : a.cells[h.index]? with
      | none =>
        exact absurd (List.getElem?_eq_none_iff.mp hc) (Nat.not_le_of_lt hlt)
      | some c =>
        cases c with
        | Allocated w g =>
          by_cases hg : g = h.generation
          · exact absurd (hg ▸ hc) (hnv w)
          · simp [hg]
        | Freed nx g => rfl
    · intro hle
      unfold Arena.getRes
      rw [List.getElem?_eq_none hle]
  · intro T N a h
    refine ⟨?_, ?_, ?_⟩
    · intro v
      unfold SArena.getRes
      cases hc : a.cells[h.index]? with
      | none => simp
      | some c =>
        cases c with
        | Allocated w g =>
          by_cases hg : g = h.generation
          · subst hg; simp [ArenaCell.Allocated.injEq, eq_comm]
          · simp [hg, ArenaCell.Allocated.injEq]
        | Freed nx g => simp
    · intro hlt hnv
      unfold SArena.getRes
      cases hc : a.cells[h.index]? with
      | none =>
        exact absurd (List.getElem?_eq_none_iff.mp hc) (Nat.not_le_of_lt hlt)
      | some c =>
        cases c with
        | Allocated w g =>
          by_cases hg : g = h.generation
          · exact absurd (hg ▸ hc) (hnv w)
          · simp [hg]
        | Freed nx g => rfl
    · intro hle
      unfold SArena.getRes
      rw [List.getElem?_eq_none hle]

/-- C1 witness: the theorem applied at concrete inputs (a stale in-range handle on a
freed slot, and an out-of-range handle on both arena variants). -/
theorem C1_witness :
    Arena.getRes (⟨[ArenaCell.Freed none 0], none, 0⟩ : Arena Nat) ⟨0, 3⟩ = some none ∧
    Arena.getRes (⟨[], none, 0⟩ : Arena Nat) ⟨0, 0⟩ = none ∧
    SArena.getRes (⟨[], none, 0⟩ : SArena Nat 0) ⟨0, 0⟩ = none :=
  ⟨(C1_get_returns_value_iff_valid.1 Nat ⟨[ArenaCell.Freed none 0], none, 0⟩ ⟨0, 3⟩).2.1
      (by decide) (fun v hv => by simp at hv),
   (C1_get_returns_value_iff_valid.1 Nat ⟨[], none, 0⟩ ⟨0, 0⟩).2.2 (by decide),
   (C1_get_returns_value_iff_valid.2 Nat 0 ⟨[], none, 0⟩ ⟨0, 0⟩).2.2 (by decide)⟩

/-- C1 counterexample to the claim as stated: on the empty arena the handle `(0, 0)`
is invalid (index out of range), yet `get` does not return empty — it panics
(out-of-bounds indexing), embedded as `none`. -/
theorem C1_counterexample :
    Arena.getRes (⟨[], none, 0⟩ : Arena Nat) ⟨0, 0⟩ ≠ some none := by decide

/-- C2 (amended): `Arena::try_insert` claims the head of the free list when that head
is an in-range `Freed` slot; it hands the value back unclaimed when the head refers
to an in-range slot that is not `Free`; but when the free list is empty it appends a
new slot with generation 0 — the backing storage does grow in that case. -/
theorem C2_try_insert_cases :
    ∀ (T : Type) (a : Arena T) (v : T),
      (a.freed = none →
        a.tryInsert v = some (Sum.inl ⟨a.cells.length, 0⟩,
          ⟨a.cells ++ [ArenaCell.Allocated v 0], none, a.num + 1⟩)) ∧
      (∀ i nx g, a.freed = some i → a.cells[i]? = some (ArenaCell.Freed nx g) →
        a.tryInsert v = some (Sum.inl ⟨i, g⟩,
          ⟨a.cells.set i (ArenaCell.Allocated v g), nx, a.num + 1⟩)) ∧
      (∀ i w g, a.freed = some i → a.cells[i]? = some (ArenaCell.Allocated w g) →
        a.tryInsert v = some (Sum.inr v, a)) := by
  intro T a v
  refine ⟨?_, ?_, ?_⟩
  · intro hf; unfold Arena.tryInsert; rw [hf]
  · intro i nx g hf hc; simp only [Arena.tryInsert, hf, hc]
  · intro i w g hf hc; simp only [Arena.tryInsert, hf, hc]

/-- C2 witness: the theorem applied at a concrete input (claiming a freed head). -/
theorem C2_witness :
    Arena.tryInsert (⟨[ArenaCell.Freed none 2], some 0, 0⟩ : Arena Nat) 7 =
      some (Sum.inl ⟨0, 2⟩, ⟨[ArenaCell.Allocated 7 2], none, 1⟩) :=
  (C2_try_insert_cases Nat ⟨[ArenaCell.Freed none 2], some 0, 0⟩ 7).2.1 0 none 2
    rfl (by decide)

/-- C2 counterexample to the claim as stated: on the empty arena (empty free list)
`try_insert` succeeds by appending a new slot — the backing storage grows from 0 to
1 cells, contradicting "never grows / never appends". -/
theorem C2_counterexample :
    Arena.tryInsert (⟨[], none, 0⟩ : Arena Nat) 5 =
      some (Sum.inl ⟨0, 0⟩, ⟨[ArenaCell.Allocated 5 0], none, 1⟩) ∧
    (⟨[ArenaCell.Allocated 5 0], none, 1⟩ : Arena Nat).cells.length ≠
      (⟨[], none, 0⟩ : Arena Nat).cells.length := by decide

/-- C9: on a fixed-capacity arena whose free list is empty, `try_insert` returns the
value unchanged as `Err` and leaves the state unmodified; the capacity is the fixed
`N` and never grows. -/
theorem C9_sarena_full_try_insert :
    ∀ (T : Type) (N : Nat) (a : SArena T N) (v : T),
      a.freed = none →
      a.tryInsert v = some (Sum.inr v, a) ∧ a.capacity = N := by
  intro T N a v hf
  constructor
  · unfold SArena.tryInsert; rw [hf]
  · rfl

/-- C9 witness: the theorem applied at a concrete full arena. -/
theorem C9_witness :
    SArena.tryInsert (⟨[ArenaCell.Allocated 4 0], none, 1⟩ : SArena Nat 1) 9 =
      some (Sum.inr 9, ⟨[ArenaCell.Allocated 4 0], none, 1⟩) ∧
    SArena.capacity (⟨[ArenaCell.Allocated 4 0], none, 1⟩ : SArena Nat 1) = 1 :=
  C9_sarena_full_try_insert Nat 1 ⟨[ArenaCell.Allocated 4 0], none, 1⟩ 9 rfl

/-- C4: for an in-range handle, `remove` turns an `Allocated` slot into a `Freed`
slot whose generation is the slot's current generation plus one and whose `next` is
the previous freed head; the slot becomes the new freed head and the live count
drops by one. On a slot that is already `Freed`, `remove` leaves the state
unchanged. (No generation check is performed.) Holds for `Arena::remove` and
`SArena::remove`. -/
theorem C4_remove_behavior :
    (∀ (T : Type) (a : Arena T) (h : ArenaIdx),
      (∀ v g, a.cells[h.index]? = some (ArenaCell.Allocated v g) →
        a.remove h = some ⟨a.cells.set h.index (ArenaCell.Freed a.freed (g + 1)),
          some h.index, a.num - 1⟩) ∧
      (∀ nx g, a.cells[h.index]? = some (ArenaCell.Freed nx g) →
        a.remove h = some a)) ∧
    (∀ (T : Type) (N : Nat) (a : SArena T N) (h : SArenaIdx),
      (∀ v g, a.cells[h.index]? = some (ArenaCell.Allocated v g) →
        a.remove h = some ⟨a.cells.set h.index (ArenaCell.Freed a.freed (g + 1)),
          some h.index, a.num - 1⟩) ∧
      (∀ nx g, a.cells[h.index]? = some (ArenaCell.Freed nx g) →
        a.remove h = some a)) := by
  constructor
  · intro T a h
    constructor
    · intro v g hc; simp only [Arena.remove, hc]
    · intro nx g hc; simp only [Arena.remove, hc]
  · intro T N a h
    constructor
    · intro v g hc; simp only [SArena.remove, hc]
    · intro nx g hc; simp only [SArena.remove, hc]

/-- C4 witness: the theorem applied at concrete inputs (removing a live slot,
removing an already-freed slot, and the fixed-capacity variant). -/
theorem C4_witness :
    Arena.remove (⟨[ArenaCell.Allocated 3 0], none, 1⟩ : Arena Nat) ⟨0, 0⟩ =
      some ⟨[ArenaCell.Freed none 1], some 0, 0⟩ ∧
    Arena.remove (⟨[ArenaCell.Freed none 1], some 0, 0⟩ : Arena Nat) ⟨0, 1⟩ =
      some ⟨[ArenaCell.Freed none 1], some 0, 0⟩ ∧
    SArena.remove (⟨[ArenaCell.Allocated 3 0], none, 1⟩ : SArena Nat 1) ⟨0, 0⟩ =
      some ⟨[ArenaCell.Freed none 1], some 0, 0⟩ :=
  ⟨(C4_remove_behavior.1 Nat ⟨[ArenaCell.Allocated 3 0], none, 1⟩ ⟨0, 0⟩).1 3 0 (by decide),
   (C4_remove_behavior.1 Nat ⟨[ArenaCell.Freed none 1], some 0, 0⟩ ⟨0, 1⟩).2 none 1 (by decide),
   (C4_remove_behavior.2 Nat 1 ⟨[ArenaCell.Allocated 3 0], none, 1⟩ ⟨0, 0⟩).1 3 0 (by decide)⟩

/-- C5: `get2_mut` on two handles naming the same slot index: equal generations are
a fatal contract violation (the explicit panic); with different generations the
handle of strictly greater generation is the one resolved through the normal
generation-checked lookup (so a reference can be returned only for it) and the other
component is empty. Holds for `Arena::get2_mut` and `SArena::get2_mut`. -/
theorem C5_get2_mut_same_slot :
    (∀ (T : Type) (a : Arena T) (h1 h2 : ArenaIdx), h1.index = h2.index →
      (h1.generation = h2.generation → a.get2MutRes h1 h2 = none) ∧
      (h2.generation < h1.generation →
        a.get2MutRes h1 h2 = (a.getMutRes h1).map fun r => (r, (none : Option T))) ∧
      (h1.generation < h2.generation →
        a.get2MutRes h1 h2 = (a.getMutRes h2).map fun r => ((none : Option T), r))) ∧
    (∀ (T : Type) (N : Nat) (a : SArena T N) (h1 h2 : SArenaIdx), h1.index = h2.index →
      (h1.generation = h2.generation → a.get2MutRes h1 h2 = none) ∧
      (h2.generation < h1.generation →
        a.get2MutRes h1 h2 = (a.getMutRes h1).map fun r => (r, (none : Option T))) ∧
      (h1.generation < h2.generation →
        a.get2MutRes h1 h2 = (a.getMutRes h2).map fun r => ((none : Option T), r))) := by
  constructor
  · intro T a h1 h2 hidx
    refine ⟨?_, ?_, ?_⟩
    · intro hg; unfold Arena.get2MutRes; rw [if_pos hidx, if_pos hg]
    · intro hg
      unfold Arena.get2MutRes
      rw [if_pos hidx, if_neg (by omega : ¬ h1.generation = h2.generation), if_pos hg]
    · intro hg
      unfold Arena.get2MutRes
      rw [if_pos hidx, if_neg (by omega : ¬ h1.generation = h2.generation),
        if_neg (by omega : ¬ h2.generation < h1.generation)]
  · intro T N a h1 h2 hidx
    refine ⟨?_, ?_, ?_⟩
    · intro hg; unfold SArena.get2MutRes; rw [if_pos hidx, if_pos hg]
    · intro hg
      unfold SArena.get2MutRes
      rw [if_pos hidx, if_neg (by omega : ¬ h1.generation = h2.generation), if_pos hg]
    · intro hg
      unfold SArena.get2MutRes
      rw [if_pos hidx, if_neg (by omega : ¬ h1.generation = h2.generation),
        if_neg (by omega : ¬ h2.generation < h1.generation)]

/-- C5 witness: the theorem applied at concrete inputs (equal generations panic on
both variants; with generations 1 > 0 on a live slot of generation 1 only the newer
handle gets the reference). -/
theorem C5_witness :
    Arena.get2MutRes (⟨[], none, 0⟩ : Arena Nat) ⟨0, 0⟩ ⟨0, 0⟩ = none ∧
    Arena.get2MutRes (⟨[ArenaCell.Allocated 3 1], none, 1⟩ : Arena Nat) ⟨0, 1⟩ ⟨0, 0⟩ =
      some (some 3, none) ∧
    SArena.get2MutRes (⟨[], none, 0⟩ : SArena Nat 0) ⟨0, 0⟩ ⟨0, 0⟩ = none :=
  ⟨(C5_get2_mut_same_slot.1 Nat ⟨[], none, 0⟩ ⟨0, 0⟩ ⟨0, 0⟩ rfl).1 rfl,
   ((C5_get2_mut_same_slot.1 Nat ⟨[ArenaCell.Allocated 3 1], none, 1⟩ ⟨0, 1⟩ ⟨0, 0⟩
      rfl).2.1 (by decide)).trans (by decide),
   (C5_get2_mut_same_slot.2 Nat 0 ⟨[], none, 0⟩ ⟨0, 0⟩ ⟨0, 0⟩ rfl).1 rfl⟩

/-- C6 (amended): the single-handle lookups `get`, `get_mut`, `get_any`,
`get_any_mut` and `gen` all fail fatally (out-of-bounds indexing panic) on an
out-of-range slot index. `get2_mut`, however, checks the range of each index when
the two indices differ and silently returns an empty component for the
out-of-range one instead of failing, whether the out-of-range handle is passed in
the first or in the second position. -/
theorem C6_out_of_range_lookups :
    ∀ (T : Type) (a : Arena T) (h : ArenaIdx) (i : Nat),
      a.cells.length ≤ i → a.cells.length ≤ h.index →
      (a.getRes h = none ∧ a.getMutRes h = none ∧ a.getAnyRes i = none ∧
       a.getAnyMutRes i = none ∧ a.genRes i = none) ∧
      (∀ h2 : ArenaIdx, h2.index < a.cells.length →
        a.get2MutRes h h2 = (a.getMutRes h2).map (fun r => ((none : Option T), r)) ∧
        a.get2MutRes h h2 ≠ none) ∧
      (∀ h2 : ArenaIdx, h2.index < a.cells.length →
        a.get2MutRes h2 h = (a.getMutRes h2).map (fun r => (r, (none : Option T))) ∧
        a.get2MutRes h2 h ≠ none) := by
  intro T a h i hi hh
  have hnone : a.cells[h.index]? = none := List.getElem?_eq_none hh
  have hinone : a.cells[i]? = none := List.getElem?_eq_none hi
  refine ⟨⟨?_, ?_, ?_, ?_, ?_⟩, ?_, ?_⟩
  · simp only [Arena.getRes, hnone]
  · simp only [Arena.getMutRes, hnone]
  · simp only [Arena.getAnyRes, hinone]
  · simp only [Arena.getAnyMutRes, hinone]
  · simp only [Arena.genRes, hinone]
  · intro h2 h2lt
    have hne : ¬ h.index = h2.index := by omega
    constructor
    · unfold Arena.get2MutRes
      rw [if_neg hne, if_pos hh]
    · unfold Arena.get2MutRes
      rw [if_neg hne, if_pos hh]
      cases hx : a.cells[h2.index]? with
      | none => exact absurd (List.getElem?_eq_none_iff.mp hx) (Nat.not_le_of_lt h2lt)
      | some c =>
        cases c with
        | Allocated w g => simp [Arena.getMutRes, hx]
        | Freed nx g => simp [Arena.getMutRes, hx]
  · intro h2 h2lt
    have hne : ¬ h2.index = h.index := by omega
    have hin : ¬ a.cells.length ≤ h2.index := Nat.not_le_of_lt h2lt
    constructor
    · unfold Arena.get2MutRes
      rw [if_neg hne, if_neg hin, if_pos hh]
    · unfold Arena.get2MutRes
      rw [if_neg hne, if_neg hin, if_pos hh]
      cases hx : a.cells[h2.index]? with
      | none => exact absurd (List.getElem?_eq_none_iff.mp hx) (Nat.not_le_of_lt h2lt)
      | some c =>
        cases c with
        | Allocated w g => simp [Arena.getMutRes, hx]
        | Freed nx g => simp [Arena.getMutRes, hx]

/-- C6 witness: the theorem applied at concrete inputs (index 7 and handle index 5
on a one-slot arena: `gen` panics; `get2_mut` with the out-of-range handle in the
second position returns the in-range reference and an empty second component). -/
theorem C6_witness :
    Arena.genRes (⟨[ArenaCell.Allocated 1 0], none, 1⟩ : Arena Nat) 7 = none ∧
    Arena.get2MutRes (⟨[ArenaCell.Allocated 1 0], none, 1⟩ : Arena Nat) ⟨0, 0⟩ ⟨5, 0⟩ =
      some (some 1, none) :=
  ⟨((C6_out_of_range_lookups Nat ⟨[ArenaCell.Allocated 1 0], none, 1⟩ ⟨5, 0⟩ 7
      (by decide) (by decide)).1).2.2.2.2,
   (((C6_out_of_range_lookups Nat ⟨[ArenaCell.Allocated 1 0], none, 1⟩ ⟨5, 0⟩ 7
      (by decide) (by decide)).2.2 ⟨0, 0⟩ (by decide)).1).trans (by decide)⟩

/-- C6 counterexample to the claim as stated: `get2_mut` invoked with the
out-of-range index 5 (on a one-slot arena) together with an in-range handle does
not fail fatally — it returns an ordinary result with an empty first component. -/
theorem C6_counterexample :
    Arena.get2MutRes (⟨[ArenaCell.Allocated 1 0], none, 1⟩ : Arena Nat) ⟨5, 0⟩ ⟨0, 0⟩ =
      some (none, some 1) ∧
    some ((none : Option Nat), some 1) ≠ (none : Option (Option Nat × Option Nat)) := by
  decide

/-- C7: removing a valid handle to an `Allocated` slot and then inserting reuses the
freed slot index before any growth: the new handle has the same slot index and a
strictly greater generation, and the storage length is unchanged. The end-to-end
scenario of the spec (insert 0 and 1, remove the handle `(1, 0)`, insert 2, new
handle `(1, 1)`, lookups as specified) is the second conjunct. -/
theorem C7_reuse_freed_slot_before_growth :
    (∀ (T : Type) (a : Arena T) (h : ArenaIdx) (v0 v : T),
      a.cells[h.index]? = some (ArenaCell.Allocated v0 h.generation) →
      ((a.remove h).bind fun a2 => (a2.insertRes v).map Prod.fst) =
        some ⟨h.index, h.generation + 1⟩ ∧
      ((a.remove h).bind fun a2 => (a2.insertRes v).map fun p => p.2.cells.length) =
        some a.cells.length ∧
      h.generation < h.generation + 1) ∧
    (Arena.insertRes (Arena.new : Arena Nat) 0 =
        some (⟨0, 0⟩, ⟨[ArenaCell.Allocated 0 0], none, 1⟩) ∧
      Arena.insertRes (⟨[ArenaCell.Allocated 0 0], none, 1⟩ : Arena Nat) 1 =
        some (⟨1, 0⟩, ⟨[ArenaCell.Allocated 0 0, ArenaCell.Allocated 1 0], none, 2⟩) ∧
      Arena.remove (⟨[ArenaCell.Allocated 0 0, ArenaCell.Allocated 1 0], none, 2⟩ :
          Arena Nat) ⟨1, 0⟩ =
        some ⟨[ArenaCell.Allocated 0 0, ArenaCell.Freed none 1], some 1, 1⟩ ∧
      Arena.getRes (⟨[ArenaCell.Allocated 0 0, ArenaCell.Freed none 1], some 1, 1⟩ :
          Arena Nat) ⟨1, 0⟩ = some none ∧
      Arena.insertRes (⟨[ArenaCell.Allocated 0 0, ArenaCell.Freed none 1], some 1, 1⟩ :
          Arena Nat) 2 =
        some (⟨1, 1⟩, ⟨[ArenaCell.Allocated 0 0, ArenaCell.Allocated 2 1], none, 2⟩) ∧
      Arena.getRes (⟨[ArenaCell.Allocated 0 0, ArenaCell.Allocated 2 1], none, 2⟩ :
          Arena Nat) ⟨1, 1⟩ = some (some 2) ∧
      Arena.getRes (⟨[ArenaCell.Allocated 0 0, ArenaCell.Allocated 2 1], none, 2⟩ :
          Arena Nat) ⟨1, 0⟩ = some none) := by
  constructor
  · intro T a h v0 v hc
    have hlt : h.index < a.cells.length := getElem_opt_some_lt hc
    have hrem : a.remove h =
        some ⟨a.cells.set h.index (ArenaCell.Freed a.freed (h.generation + 1)),
          some h.index, a.num - 1⟩ := by
      simp only [Arena.remove, hc]
    have hcell2 :
        (a.cells.set h.index (ArenaCell.Freed a.freed (h.generation + 1)))[h.index]? =
          some (ArenaCell.Freed a.freed (h.generation + 1)) := by
      simp [List.getElem?_set_self', hlt]
    have htry : Arena.tryInsert
        (⟨a.cells.set h.index (ArenaCell.Freed a.freed (h.generation + 1)),
          some h.index, a.num - 1⟩ : Arena T) v =
        some (Sum.inl ⟨h.index, h.generation + 1⟩,
          ⟨(a.cells.set h.index (ArenaCell.Freed a.freed (h.generation + 1))).set h.index
              (ArenaCell.Allocated v (h.generation + 1)), a.freed, (a.num - 1) + 1⟩) := by
      simp only [Arena.tryInsert, hcell2]
    have hins : Arena.insertRes
        (⟨a.cells.set h.index (ArenaCell.Freed a.freed (h.generation + 1)),
          some h.index, a.num - 1⟩ : Arena T) v =
        some (⟨h.index, h.generation + 1⟩,
          ⟨(a.cells.set h.index (ArenaCell.Freed a.freed (h.generation + 1))).set h.index
              (ArenaCell.Allocated v (h.generation + 1)), a.freed, (a.num - 1) + 1⟩) := by
      simp only [Arena.insertRes, htry]
    refine ⟨?_, ?_, Nat.lt_succ_self _⟩
    · rw [hrem, Option.some_bind, hins, Option.map_some']
    · rw [hrem, Option.some_bind, hins, Option.map_some']
      simp [List.length_set]
  · exact ⟨by decide, by decide, by decide, by decide, by decide, by decide, by decide⟩

/-- C7 witness: the general part of the theorem applied at a concrete input
(a one-slot arena holding 3 under handle `(0, 0)`; after remove and insert of 8 the
new handle is `(0, 1)` and the storage still has one slot). -/
theorem C7_witness :
    ((Arena.remove (⟨[ArenaCell.Allocated 3 0], none, 1⟩ : Arena Nat) ⟨0, 0⟩).bind
        fun a2 => (a2.insertRes 8).map Prod.fst) = some ⟨0, 1⟩ ∧
    ((Arena.remove (⟨[ArenaCell.Allocated 3 0], none, 1⟩ : Arena Nat) ⟨0, 0⟩).bind
        fun a2 => (a2.insertRes 8).map fun p => p.2.cells.length) = some 1 :=
  ⟨(C7_reuse_freed_slot_before_growth.1 Nat ⟨[ArenaCell.Allocated 3 0], none, 1⟩
      ⟨0, 0⟩ 3 8 (by decide)).1,
   (C7_reuse_freed_slot_before_growth.1 Nat ⟨[ArenaCell.Allocated 3 0], none, 1⟩
      ⟨0, 0⟩ 3 8 (by decide)).2.1⟩

theorem clearCells_length {T : Type} (len : Nat) :
    ∀ (i : Nat) (l : List (ArenaCell T)), (Arena.clearCells len i l).length = l.length := by
  intro i l
  induction l generalizing i with
  | nil => rfl
  | cons c rest ih => simp [Arena.clearCells, ih]

theorem clearCells_all_freed {T : Type} (len : Nat) :
    ∀ (i : Nat) (l : List (ArenaCell T)) (c : ArenaCell T),
      c ∈ Arena.clearCells len i l → ∃ nx g, c = ArenaCell.Freed nx g := by
  intro i l
  induction l generalizing i with
  | nil => intro c hc; simp [Arena.clearCells] at hc
  | cons d rest ih =>
    intro c hc
    simp only [Arena.clearCells, List.mem_cons] at hc
    cases hc with
    | inl h =>
      cases d with
      | Allocated v g => exact ⟨_, _, h⟩
      | Freed nx g => exact ⟨_, _, h⟩
    | inr h => exact ih (i + 1) c h

/-- C10: `clear` never assigns the freed-head field — it is unchanged (while every
cell is forced to `Freed`); in particular on an arena whose head is empty (e.g. one
that has only ever had insertions) the head is still empty after `clear`, so the
next `try_insert` appends a brand-new slot at index `len` instead of reusing slot 0. -/
theorem C10_clear_leaves_freed_head_unchanged :
    ∀ (T : Type) (a : Arena T) (v : T),
      a.clear.freed = a.freed ∧
      (∀ c ∈ a.clear.cells, ∃ nx g, c = ArenaCell.Freed nx g) ∧
      (a.freed = none →
        a.clear.tryInsert v = some (Sum.inl ⟨a.cells.length, 0⟩,
          ⟨a.clear.cells ++ [ArenaCell.Allocated v 0], none, 1⟩)) := by
  intro T a v
  refine ⟨rfl, ?_, ?_⟩
  · intro c hc
    exact clearCells_all_freed a.cells.length 0 a.cells c hc
  · intro hf
    have h2 : a.clear.freed = none := hf
    unfold Arena.tryInsert
    rw [h2]
    simp [Arena.clear, clearCells_length]

/-- C10 witness: the theorem applied at a concrete insert-only arena (one live slot,
empty freed head): after `clear`, inserting 6 appends at index 1. -/
theorem C10_witness :
    Arena.tryInsert (Arena.clear (⟨[ArenaCell.Allocated 5 0], none, 1⟩ : Arena Nat)) 6 =
      some (Sum.inl ⟨1, 0⟩,
        ⟨(Arena.clear (⟨[ArenaCell.Allocated 5 0], none, 1⟩ : Arena Nat)).cells ++
            [ArenaCell.Allocated 6 0], none, 1⟩) :=
  (C10_clear_leaves_freed_head_unchanged Nat ⟨[ArenaCell.Allocated 5 0], none, 1⟩ 6).2.2 rfl

/-- C3 (code bug, evaluated at the failing input): on the arena obtained by
inserting one value (freed head `none`), `clear` leaves the head `none` even though
it rewrote the slot links, so following the free-list head enumerates no slot at
all rather than every slot; the remaining clauses of the claim do hold here (the
slot is Free with its generation bumped to 1, the live count is 0, and the
previously issued handle `(0, 0)` now yields `None`). -/
theorem C3_clear_does_not_reset_freed_head :
    Arena.clear (⟨[ArenaCell.Allocated 1 0], none, 1⟩ : Arena Nat) =
      ⟨[ArenaCell.Freed none 1], none, 0⟩ ∧
    Arena.freeChain (⟨[ArenaCell.Freed none 1], none, 0⟩ : Arena Nat) = [] ∧
    ([] : List Nat) ≠ [0] ∧
    Arena.getRes (⟨[ArenaCell.Freed none 1], none, 0⟩ : Arena Nat) ⟨0, 0⟩ = some none ∧
    Arena.numRes (⟨[ArenaCell.Freed none 1], none, 0⟩ : Arena Nat) = 0 := by
  decide

theorem tryInsert_freed_none {T : Type} {a : Arena T} {v : T} (hf : a.freed = none) :
    a.tryInsert v = some (Sum.inl ⟨a.cells.length, 0⟩,
      ⟨a.cells ++ [ArenaCell.Allocated v 0], none, a.num + 1⟩) := by
  simp only [Arena.tryInsert, hf]

theorem tryInsert_head_freed {T : Type} {a : Arena T} {v : T} {i : Nat}
    {nx : Option Nat} {g : Nat} (hf : a.freed = some i)
    (hc : a.cells[i]? = some (ArenaCell.Freed nx g)) :
    a.tryInsert v = some (Sum.inl ⟨i, g⟩,
      ⟨a.cells.set i (ArenaCell.Allocated v g), nx, a.num + 1⟩) := by
  simp only [Arena.tryInsert, hf, hc]

theorem tryInsert_head_alloc {T : Type} {a : Arena T} {v : T} {i : Nat}
    {w : T} {g : Nat} (hf : a.freed = some i)
    (hc : a.cells[i]? = some (ArenaCell.Allocated w g)) :
    a.tryInsert v = some (Sum.inr v, a) := by
  simp only [Arena.tryInsert, hf, hc]

theorem tryInsert_head_oob {T : Type} {a : Arena T} {v : T} {i : Nat}
    (hf : a.freed = some i) (hc : a.cells[i]? = none) :
    a.tryInsert v = none := by
  simp only [Arena.tryInsert, hf, hc]

theorem remove_alloc {T : Type} {a : Arena T} {h : ArenaIdx} {v : T} {g : Nat}
    (hc : a.cells[h.index]? = some (ArenaCell.Allocated v g)) :
    a.remove h = some ⟨a.cells.set h.index (ArenaCell.Freed a.freed (g + 1)),
      some h.index, a.num - 1⟩ := by
  simp only [Arena.remove, hc]

theorem remove_freed {T : Type} {a : Arena T} {h : ArenaIdx} {nx : Option Nat} {g : Nat}
    (hc : a.cells[h.index]? = some (ArenaCell.Freed nx g)) :
    a.remove h = some a := by
  simp only [Arena.remove, hc]

theorem remove_oob {T : Type} {a : Arena T} {h : ArenaIdx}
    (hc : a.cells[h.index]? = none) : a.remove h = none := by
  simp only [Arena.remove, hc]

theorem countAllocated_append_alloc {T : Type} (l : List (ArenaCell T)) (v : T) (g : Nat) :
    Arena.countAllocated (l ++ [ArenaCell.Allocated v g]) = Arena.countAllocated l + 1 := by
  induction l with
  | nil => rfl
  | cons c rest ih =>
    cases c with
    | Allocated w gw => simp [Arena.countAllocated, ih]
    | Freed nx gx => simp [Arena.countAllocated, ih]

theorem countAllocated_set_alloc_of_freed {T : Type} {l : List (ArenaCell T)} {i : Nat}
    {nx : Option Nat} {g : Nat} (h : l[i]? = some (ArenaCell.Freed nx g))
    (v : T) (g' : Nat) :
    Arena.countAllocated (l.set i (ArenaCell.Allocated v g')) =
      Arena.countAllocated l + 1 := by
  induction l generalizing i with
  | nil => simp at h
  | cons c rest ih =>
    cases i with
    | zero =>
      simp only [List.getElem?_cons_zero, Option.some.injEq] at h
      subst h
      simp [Arena.countAllocated, List.set]
    | succ n =>
      simp only [List.getElem?_cons_succ] at h
      cases c with
      | Allocated w gw => simp [Arena.countAllocated, List.set, ih h]
      | Freed nw gw => simp [Arena.countAllocated, List.set, ih h]

theorem countAllocated_set_freed_of_alloc {T : Type} {l : List (ArenaCell T)} {i : Nat}
    {v : T} {g : Nat} (h : l[i]? = some (ArenaCell.Allocated v g))
    (nx : Option Nat) (g' : Nat) :
    Arena.countAllocated (l.set i (ArenaCell.Freed nx g')) + 1 =
      Arena.countAllocated l := by
  induction l generalizing i with
  | nil => simp at h
  | cons c rest ih =>
    cases i with
    | zero =>
      simp only [List.getElem?_cons_zero, Option.some.injEq] at h
      subst h
      simp [Arena.countAllocated, List.set]
    | succ n =>
      simp only [List.getElem?_cons_succ] at h
      cases c with
      | Allocated w gw => simp [Arena.countAllocated, List.set, ← ih h]
      | Freed nw gw => simp [Arena.countAllocated, List.set, ← ih h]

theorem countAllocated_clearCells {T : Type} (len : Nat) :
    ∀ (i : Nat) (l : List (ArenaCell T)),
      Arena.countAllocated (Arena.clearCells len i l) = 0 := by
  intro i l
  induction l generalizing i with
  | nil => rfl
  | cons c rest ih =>
    cases c with
    | Allocated v g => simp [Arena.clearCells, Arena.clearCell, Arena.countAllocated, ih]
    | Freed nx g => simp [Arena.clearCells, Arena.clearCell, Arena.countAllocated, ih]

/-- C8: in every state reachable from the fresh arena by the mutating operations
(`insert`/`try_insert` successes, `remove`, `clear`), `num()` equals the number of
`Allocated` slots in the backing storage. The counter is the maintained `num` field,
updated by `+ 1` / `- 1` in the step definitions rather than recomputed. -/
theorem C8_num_eq_count_allocated :
    ∀ (T : Type) (a : Arena T), Arena.Reachable a →
      a.numRes = Arena.countAllocated a.cells := by
  intro T a hr
  induction hr with
  | init => rfl
  | @insertStep a1 v r a2 hra heq ih =>
    cases hf : a1.freed with
    | none =>
      rw [tryInsert_freed_none hf] at heq
      cases heq
      have : a1.num = Arena.countAllocated a1.cells := ih
      simp [Arena.numRes, countAllocated_append_alloc, this]
    | some i =>
      cases hc : a1.cells[i]? with
      | none => rw [tryInsert_head_oob hf hc] at heq; simp at heq
      | some c =>
        cases c with
        | Freed nx g =>
          rw [tryInsert_head_freed hf hc] at heq
          cases heq
          have : a1.num = Arena.countAllocated a1.cells := ih
          simp [Arena.numRes, countAllocated_set_alloc_of_freed hc, this]
        | Allocated w g =>
          rw [tryInsert_head_alloc hf hc] at heq
          cases heq
          exact ih
  | @removeStep a1 h a2 hra heq ih =>
    cases hc : a1.cells[h.index]? with
    | none => rw [remove_oob hc] at heq; simp at heq
    | some c =>
      cases c with
      | Allocated v g =>
        rw [remove_alloc hc] at heq
        cases heq
        have h1 : a1.num = Arena.countAllocated a1.cells := ih
        have h2 := countAllocated_set_freed_of_alloc hc a1.freed (g + 1)
        simp only [Arena.numRes] at h1 ⊢
        omega
      | Freed nx g =>
        rw [remove_freed hc] at heq
        cases heq
        exact ih
  | @clearStep a1 hra ih =>
    show (0 : Nat) = Arena.countAllocated (Arena.clearCells a1.cells.length 0 a1.cells)
    rw [countAllocated_clearCells]

/-- C8 witness: the theorem applied to the state reached by inserting 5 into the
fresh arena. -/
theorem C8_witness :
    (⟨[ArenaCell.Allocated 5 0], none, 1⟩ : Arena Nat).numRes =
      Arena.countAllocated (⟨[ArenaCell.Allocated 5 0], none, 1⟩ : Arena Nat).cells :=
  C8_num_eq_count_allocated Nat ⟨[ArenaCell.Allocated 5 0], none, 1⟩
    (Arena.Reachable.insertStep Arena.Reachable.init
      (by decide : Arena.tryInsert (Arena.new : Arena Nat) 5 =
        some (Sum.inl ⟨0, 0⟩, ⟨[ArenaCell.Allocated 5 0], none, 1⟩)))
